import Mathlib

/-!
Verification of the CHT8305 temperature/humidity sensor driver
(src/libraries/CHT8305/CHT8305.h, Arduino library version 0.1.2).

The repository ships only the header file. Constants, register masks,
error codes, field initializers and default arguments below are taken
directly from that header. Function bodies are absent from the
repository; where a claim depends on a body, the definition is modelled
from the specification and carries a doc comment starting with
"Modelled from the spec:".

Machine floats are modelled by exact rationals, machine integers by Nat
or Int.
-/

namespace CHT8305

/-- Error code from the header: CHT8305_OK = 0. -/
def CHT8305_OK : Int := 0

/-- Error code from the header: CHT8305_ERROR_ADDR = -10 (address rejected). -/
def CHT8305_ERROR_ADDR : Int := -10

/-- Error code from the header: CHT8305_ERROR_I2C = -11 (generic I2C failure). -/
def CHT8305_ERROR_I2C : Int := -11

/-- Error code from the header: CHT8305_ERROR_CONNECT = -12 (device not connected). -/
def CHT8305_ERROR_CONNECT : Int := -12

/-- Error code from the header: CHT8305_ERROR_LASTREAD = -20 (stale read before any success). -/
def CHT8305_ERROR_LASTREAD : Int := -20

/-- Configuration register mask from the header. -/
def CHT8305_CFG_SOFT_RESET : Nat := 0x8000

/-- Configuration register mask from the header. -/
def CHT8305_CFG_CLOCK_STRETCH : Nat := 0x4000

/-- Configuration register mask from the header. -/
def CHT8305_CFG_HEATER : Nat := 0x2000

/-- Configuration register mask from the header. -/
def CHT8305_CFG_MODE : Nat := 0x1000

/-- Configuration register mask from the header. -/
def CHT8305_CFG_VCCS : Nat := 0x0800

/-- Configuration register mask from the header. -/
def CHT8305_CFG_TEMP_RES : Nat := 0x0400

/-- Configuration register mask from the header (two bits). -/
def CHT8305_CFG_HUMI_RES : Nat := 0x0300

/-- Configuration register mask from the header (two bits). -/
def CHT8305_CFG_ALERT_MODE : Nat := 0x00C0

/-- Configuration register mask from the header. -/
def CHT8305_CFG_ALERT_PENDING : Nat := 0x0020

/-- Configuration register mask from the header. -/
def CHT8305_CFG_ALERT_HUMI : Nat := 0x0010

/-- Configuration register mask from the header. -/
def CHT8305_CFG_ALERT_TEMP : Nat := 0x0008

/-- Configuration register mask from the header. -/
def CHT8305_CFG_VCC_ENABLE : Nat := 0x0004

/-- Configuration register mask from the header (two reserved bits). -/
def CHT8305_CFG_VCC_RESERVED : Nat := 0x0003

/-- The thirteen configuration-field masks, in header order. -/
def configMasks : List Nat :=
  [CHT8305_CFG_SOFT_RESET, CHT8305_CFG_CLOCK_STRETCH, CHT8305_CFG_HEATER,
   CHT8305_CFG_MODE, CHT8305_CFG_VCCS, CHT8305_CFG_TEMP_RES,
   CHT8305_CFG_HUMI_RES, CHT8305_CFG_ALERT_MODE, CHT8305_CFG_ALERT_PENDING,
   CHT8305_CFG_ALERT_HUMI, CHT8305_CFG_ALERT_TEMP, CHT8305_CFG_VCC_ENABLE,
   CHT8305_CFG_VCC_RESERVED]

/-- Default value of the begin() address parameter, from the header
declaration `int begin(const uint8_t address = 0x50)`. -/
def beginDefaultAddress : Nat := 0x50

/--
Driver state. Fields mirror the private members of class CHT8305 in the
header: _humOffset, _tempOffset, _humidity, _temperature, _lastRead and
_address. Floats are modelled as rationals. The two alert-threshold
device registers written by setAlertLevels are carried alongside so that
frame effects on them can be stated.
-/
structure CHT8305State where
  humOffset : ℚ
  tempOffset : ℚ
  humidity : ℚ
  temperature : ℚ
  lastReadTime : Nat
  address : Nat
  alertLevelT : ℚ
  alertLevelH : ℚ
deriving Repr, DecidableEq

/-- Freshly constructed driver: the header initializes _humOffset = 0.0,
_tempOffset = 0.0, _humidity = 0.0, _temperature = 0.0, _lastRead = 0 and
_address = 0x40. The alert-threshold registers start at 0 here; no claim
depends on their initial value. -/
def initState : CHT8305State :=
  { humOffset := 0, tempOffset := 0, humidity := 0, temperature := 0,
    lastReadTime := 0, address := 0x40, alertLevelT := 0, alertLevelH := 0 }

/-- Modelled from the spec: the body of begin() is absent from the
repository; the spec says begin stores the address it is given
(the default argument 0x50 is in the header). The presence probe does
not change the stored state. -/
def begin (s : CHT8305State) (address : Nat) : CHT8305State :=
  { s with address := address }

/-- Modelled from the spec: decode phase of read(), temperature word to
degrees Celsius, rawT / 65536.0 * 165.0 - 40.0. -/
def decodeTemperature (raw : ℚ) : ℚ := raw / 65536 * 165 - 40

/-- Modelled from the spec: decode phase of read(), humidity word to
percent relative humidity, rawH / 65536.0 * 100.0. -/
def decodeHumidity (raw : ℚ) : ℚ := raw / 65536 * 100

/-- Modelled from the spec: inverse of the temperature decode formula, as
used by setAlertLevels to encode a physical threshold. -/
def encodeTemperature (t : ℚ) : ℚ := (t + 40) / 165 * 65536

/-- Modelled from the spec: inverse of the humidity decode formula, as
used by setAlertLevels to encode a physical threshold. -/
def encodeHumidity (h : ℚ) : ℚ := h / 100 * 65536

/-- Raw 16-bit word from two bus bytes, big-endian per the datasheet
convention. -/
def wordOf (hi lo : Nat) : Nat := hi * 256 + lo

/-- Outcome of the 4-byte bus transaction issued by read(): either the
device did not acknowledge, or a (possibly short) list of bytes came
back. -/
inductive BusRead where
  | nack
  | bytes (bs : List Nat)
deriving Repr, DecidableEq

/-- Modelled from the spec: the body of read() is absent from the
repository. Two-phase protocol: fetch 4 bytes starting at the
temperature register; on bus error (no acknowledgment, short read, or
size mismatch) return an error status and leave cache and timestamp
untouched; on success decode both words, update cache and timestamp,
return CHT8305_OK. -/
def read (s : CHT8305State) (now : Nat) (r : BusRead) : Int × CHT8305State :=
  match r with
  | .nack => (CHT8305_ERROR_I2C, s)
  | .bytes [b0, b1, b2, b3] =>
      (CHT8305_OK,
       { s with
         temperature := decodeTemperature (wordOf b0 b1),
         humidity := decodeHumidity (wordOf b2 b3),
         lastReadTime := now })
  | .bytes _ => (CHT8305_ERROR_I2C, s)

/-- Modelled from the spec: getTemperature() returns the cached decoded
value plus the temperature offset, with no bus access. -/
def getTemperature (s : CHT8305State) : ℚ := s.temperature + s.tempOffset

/-- Modelled from the spec: getHumidity() returns the cached decoded
value plus the humidity offset, with no bus access. -/
def getHumidity (s : CHT8305State) : ℚ := s.humidity + s.humOffset

/-- Modelled from the spec: lastRead() returns the timestamp of the last
successful read; 0 means never read. -/
def lastRead (s : CHT8305State) : Nat := s.lastReadTime

/-- Modelled from the spec: setTempOffset stores the additive calibration
constant. -/
def setTempOffset (s : CHT8305State) (offset : ℚ) : CHT8305State :=
  { s with tempOffset := offset }

/-- Modelled from the spec: setHumOffset stores the additive calibration
constant. -/
def setHumOffset (s : CHT8305State) (offset : ℚ) : CHT8305State :=
  { s with humOffset := offset }

/-- Modelled from the spec: isConnected() performs a zero-length bus
transaction to the stored address; the transport returns an
endTransmission code where 0 means acknowledgment and any nonzero code
is a transport-level failure. The call is true exactly on code 0 and has
no side effect on the driver state. -/
def isConnected (s : CHT8305State) (code : Nat) : Bool × CHT8305State :=
  (code == 0, s)

/-- Modelled from the spec: setAlertLevels converts each physical
threshold to its raw encoding using the inverse of the decode formulas
and writes the alert-threshold registers; it returns false if the
temperature is outside [-40, 125] degrees Celsius or the humidity is
outside [0, 100] percent, writing nothing in that case. -/
def setAlertLevels (s : CHT8305State) (t h : ℚ) : Bool × CHT8305State :=
  if t < -40 ∨ 125 < t then (false, s)
  else if h < 0 ∨ 100 < h then (false, s)
  else (true, { s with alertLevelT := encodeTemperature t,
                       alertLevelH := encodeHumidity h })

/-- Field extraction from the 16-bit configuration register: mask, then
shift down. -/
def getField (reg mask shift : Nat) : Nat := (reg &&& mask) >>> shift

/-- Modelled from the spec: each configuration setter reads the current
register, clears the field mask, ORs in the new shifted value, and
writes the result back. -/
def setField (reg mask shift v : Nat) : Nat :=
  (reg &&& (0xFFFF ^^^ mask)) ||| (v <<< shift)

/-- Modelled from the spec: clock-stretch setter (mask 0x4000, bit 14). -/
def setI2CClockStretch (reg : Nat) (b : Bool) : Nat :=
  setField reg CHT8305_CFG_CLOCK_STRETCH 14 (cond b 1 0)

/-- Clock-stretch getter (mask 0x4000, bit 14). -/
def getI2CClockStretch (reg : Nat) : Bool :=
  getField reg CHT8305_CFG_CLOCK_STRETCH 14 == 1

/-- Modelled from the spec: heater setter (mask 0x2000, bit 13). -/
def setHeaterOn (reg : Nat) (b : Bool) : Nat :=
  setField reg CHT8305_CFG_HEATER 13 (cond b 1 0)

/-- Heater getter (mask 0x2000, bit 13). -/
def getHeater (reg : Nat) : Bool :=
  getField reg CHT8305_CFG_HEATER 13 == 1

/-- Modelled from the spec: measurement-mode setter (mask 0x1000, bit 12). -/
def setMeasurementMode (reg : Nat) (both : Bool) : Nat :=
  setField reg CHT8305_CFG_MODE 12 (cond both 1 0)

/-- Measurement-mode getter (mask 0x1000, bit 12). -/
def getMeasurementMode (reg : Nat) : Bool :=
  getField reg CHT8305_CFG_MODE 12 == 1

/-- Modelled from the spec: temperature-resolution setter (mask 0x0400,
bit 10); per the header comment, 1 = 11 bit, other = 14 bit. -/
def setTemperatureResolution (reg : Nat) (res : Nat) : Nat :=
  setField reg CHT8305_CFG_TEMP_RES 10 (if res = 1 then 1 else 0)

/-- Temperature-resolution getter (mask 0x0400, bit 10). -/
def getTemperatureResolution (reg : Nat) : Nat :=
  getField reg CHT8305_CFG_TEMP_RES 10

/-- Modelled from the spec: humidity-resolution setter (mask 0x0300,
bits 9-8); per the header comment, 2 = 8 bit, 1 = 11 bit, other = 14 bit. -/
def setHumidityResolution (reg : Nat) (res : Nat) : Nat :=
  setField reg CHT8305_CFG_HUMI_RES 8 (if res = 2 then 2 else if res = 1 then 1 else 0)

/-- Humidity-resolution getter (mask 0x0300, bits 9-8). -/
def getHumidityResolution (reg : Nat) : Nat :=
  getField reg CHT8305_CFG_HUMI_RES 8

/-- Modelled from the spec: alert-trigger-mode setter (mask 0x00C0, bits
7-6); modes 0..3, returns false and writes nothing for a larger mode. -/
def setAlertTriggerMode (reg : Nat) (mode : Nat) : Bool × Nat :=
  if mode > 3 then (false, reg)
  else (true, setField reg CHT8305_CFG_ALERT_MODE 6 mode)

/-- Alert-trigger-mode getter (mask 0x00C0, bits 7-6). -/
def getAlertTriggerMode (reg : Nat) : Nat :=
  getField reg CHT8305_CFG_ALERT_MODE 6

/-- Modelled from the spec: VCC-enable setter (mask 0x0004, bit 2). -/
def setVCCenable (reg : Nat) (enable : Bool) : Nat :=
  setField reg CHT8305_CFG_VCC_ENABLE 2 (cond enable 1 0)

/-- VCC-enable getter (mask 0x0004, bit 2). -/
def getVCCenable (reg : Nat) : Bool :=
  getField reg CHT8305_CFG_VCC_ENABLE 2 == 1

/-! ### Generic lemmas about the read-modify-write field operations -/

/-- A number equal to its own conjunction with m has no bit outside m. -/
theorem testBit_false_of_land_self {a m : Nat} (h : a &&& m = a) {i : Nat}
    (hmi : m.testBit i = false) : a.testBit i = false := by
  by_contra hne
  have ha : a.testBit i = true := by
    cases hab : a.testBit i
    · exact absurd hab hne
    · rfl
  have hc := congrArg (fun x => Nat.testBit x i) h
  simp [Nat.testBit_and, hmi, ha] at hc

/-- A number equal to its own conjunction with m has every set bit inside m. -/
theorem testBit_true_of_land_self {a m : Nat} (h : a &&& m = a) {i : Nat}
    (ha : a.testBit i = true) : m.testBit i = true := by
  by_contra hne
  have hmi : m.testBit i = false := by
    cases hmb : m.testBit i
    · rfl
    · exact absurd hmb hne
  have hc := congrArg (fun x => Nat.testBit x i) h
  simp [Nat.testBit_and, hmi, ha] at hc

/-- After a read-modify-write, the bits under the field mask hold exactly
the shifted value, provided the shifted value fits inside the mask and
the mask fits in 16 bits. -/
theorem setField_land_mask (reg mask shift v : Nat)
    (hv : (v <<< shift) &&& mask = v <<< shift)
    (hm : mask &&& 65535 = mask) :
    setField reg mask shift v &&& mask = v <<< shift := by
  apply Nat.eq_of_testBit_eq
  intro i
  simp only [setField, Nat.testBit_and, Nat.testBit_or, Nat.testBit_xor]
  cases hmi : mask.testBit i
  · have hsv := testBit_false_of_land_self hv hmi
    simp [hsv]
  · have h65 := testBit_true_of_land_self hm hmi
    simp [h65]

/-- Getting a field immediately after setting it returns the value set. -/
theorem getField_setField (reg mask shift v : Nat)
    (hv : (v <<< shift) &&& mask = v <<< shift)
    (hm : mask &&& 65535 = mask) :
    getField (setField reg mask shift v) mask shift = v := by
  unfold getField
  rw [setField_land_mask reg mask shift v hv hm]
  exact Nat.shiftLeft_shiftRight v shift

/-- A read-modify-write leaves every register bit outside the field mask
unchanged. -/
theorem setField_frame (reg mask shift v : Nat)
    (hv : (v <<< shift) &&& mask = v <<< shift)
    (hm : mask &&& 65535 = mask) :
    setField reg mask shift v &&& (65535 ^^^ mask) = reg &&& (65535 ^^^ mask) := by
  apply Nat.eq_of_testBit_eq
  intro i
  simp only [setField, Nat.testBit_and, Nat.testBit_or, Nat.testBit_xor]
  cases hmi : mask.testBit i
  · have hsv := testBit_false_of_land_self hv hmi
    cases h65 : (65535 : Nat).testBit i <;> simp [hsv]
  · have h65 := testBit_true_of_land_self hm hmi
    simp [h65]

/-! ### Claim theorems -/

/-- C10: the thirteen configuration-register field masks are pairwise
disjoint and together cover all 16 bits of the register, so every
register bit belongs to exactly one named field. -/
theorem configMasks_partition :
    configMasks.Pairwise (fun a b => a &&& b = 0) ∧
    configMasks.foldr (fun a b => a ||| b) 0 = 65535 := by
  constructor <;> decide

/-- C6: the success status is 0, every failure status is a negative
integer, and the four failure kinds (address rejected, generic I2C
failure, device not connected, stale read before any success) are
pairwise distinct. -/
theorem errorCodes_distinct_negative :
    CHT8305_OK = 0 ∧
    CHT8305_ERROR_ADDR < 0 ∧ CHT8305_ERROR_I2C < 0 ∧
    CHT8305_ERROR_CONNECT < 0 ∧ CHT8305_ERROR_LASTREAD < 0 ∧
    CHT8305_ERROR_ADDR ≠ CHT8305_ERROR_I2C ∧
    CHT8305_ERROR_ADDR ≠ CHT8305_ERROR_CONNECT ∧
    CHT8305_ERROR_ADDR ≠ CHT8305_ERROR_LASTREAD ∧
    CHT8305_ERROR_I2C ≠ CHT8305_ERROR_CONNECT ∧
    CHT8305_ERROR_I2C ≠ CHT8305_ERROR_LASTREAD ∧
    CHT8305_ERROR_CONNECT ≠ CHT8305_ERROR_LASTREAD := by
  decide

/-- C9 counterexample: calling begin() with its own default address
argument (0x50, from the header) changes the stored address away from
the construction default (0x40, from the header), so the two defaults
are not the same single documented address. -/
theorem beginDefault_ne_constructorDefault :
    (begin initState beginDefaultAddress).address ≠ initState.address := by
  decide

/-- C9 (amended): the address stored at construction is 0x40 while the
default address parameter of begin() is 0x50; calling begin() with no
explicit address therefore stores 0x50, which differs from the
construction default. -/
theorem beginDefault_address_values :
    initState.address = 0x40 ∧ beginDefaultAddress = 0x50 ∧
    (begin initState beginDefaultAddress).address = 0x50 ∧
    (begin initState beginDefaultAddress).address ≠ initState.address := by
  decide

/-- C1: a successful read() of the four raw bytes decodes the raw
16-bit temperature word rawT to exactly rawT / 65536 * 165 - 40 degrees
Celsius and the raw humidity word rawH to exactly rawH / 65536 * 100
percent, with no clamping applied. -/
theorem read_decodes_exactly (s : CHT8305State) (now b0 b1 b2 b3 : Nat) :
    (read s now (.bytes [b0, b1, b2, b3])).fst = CHT8305_OK ∧
    (read s now (.bytes [b0, b1, b2, b3])).snd.temperature
      = (wordOf b0 b1 : ℚ) / 65536 * 165 - 40 ∧
    (read s now (.bytes [b0, b1, b2, b3])).snd.humidity
      = (wordOf b2 b3 : ℚ) / 65536 * 100 := by
  refine ⟨rfl, ?_, ?_⟩ <;> simp [read, decodeTemperature, decodeHumidity]

/-- C2: when read() fails with a bus error (no acknowledgment, short
read, or size mismatch), the cached temperature, cached humidity and
last-read timestamp are unchanged, the status is a negative error code,
and getTemperature() returns the same value as before the failed call. -/
theorem read_failure_preserves_cache (s : CHT8305State) (now : Nat) (r : BusRead)
    (h : (read s now r).fst ≠ CHT8305_OK) :
    (read s now r).snd = s ∧ (read s now r).fst < 0 ∧
    getTemperature (read s now r).snd = getTemperature s ∧
    getHumidity (read s now r).snd = getHumidity s ∧
    lastRead (read s now r).snd = lastRead s := by
  rcases r with _ | (_ | ⟨b0, _ | ⟨b1, _ | ⟨b2, _ | ⟨b3, _ | ⟨b4, rest⟩⟩⟩⟩⟩)
  all_goals first
    | exact absurd rfl h
    | exact ⟨rfl, by show CHT8305_ERROR_I2C < 0; decide, rfl, rfl, rfl⟩

/-- Witness for C2: a concrete failed read (no acknowledgment) on the
fresh driver state, at time 5. -/
theorem read_failure_preserves_cache_witness :
    (read initState 5 .nack).fst ≠ CHT8305_OK ∧
    ((read initState 5 .nack).snd = initState ∧
     (read initState 5 .nack).fst < 0 ∧
     getTemperature (read initState 5 .nack).snd = getTemperature initState ∧
     getHumidity (read initState 5 .nack).snd = getHumidity initState ∧
     lastRead (read initState 5 .nack).snd = lastRead initState) :=
  ⟨by decide, read_failure_preserves_cache initState 5 .nack (by decide)⟩

/-- C3: getTemperature() and getHumidity() return the cached decoded
value plus the corresponding offset as pure functions of the driver
state, and in the never-read state (fresh construction, offsets then
set) each getter returns the zero default plus its offset while
lastRead() returns 0. -/
theorem getters_cache_plus_offset (s : CHT8305State) (tOff hOff : ℚ) :
    getTemperature s = s.temperature + s.tempOffset ∧
    getHumidity s = s.humidity + s.humOffset ∧
    getTemperature (setTempOffset (setHumOffset initState hOff) tOff) = 0 + tOff ∧
    getHumidity (setTempOffset (setHumOffset initState hOff) tOff) = 0 + hOff ∧
    lastRead (setTempOffset (setHumOffset initState hOff) tOff) = 0 :=
  ⟨rfl, rfl, rfl, rfl, rfl⟩

/-- C7: isConnected() returns true exactly when the transport
acknowledges the zero-length transaction (endTransmission code 0), and
it leaves the whole driver state, in particular the cached temperature,
cached humidity and last-read timestamp, unchanged. -/
theorem isConnected_ack_iff (s : CHT8305State) (code : Nat) :
    ((isConnected s code).fst = true ↔ code = 0) ∧
    (isConnected s code).snd = s ∧
    getTemperature (isConnected s code).snd = getTemperature s ∧
    getHumidity (isConnected s code).snd = getHumidity s ∧
    lastRead (isConnected s code).snd = lastRead s := by
  refine ⟨?_, rfl, rfl, rfl, rfl⟩
  simp [isConnected]

/-- C8: for every valid 16-bit raw temperature word w, encoding the
decoded physical value through the inverse formula used by
setAlertLevels recovers w exactly (so in particular within rounding
tolerance). -/
theorem decode_encode_roundtrip (w : Nat) (_h : w < 65536) :
    encodeTemperature (decodeTemperature w) = w := by
  unfold encodeTemperature decodeTemperature
  ring

/-- Witness for C8: round trip at the concrete raw word 12345. -/
theorem decode_encode_roundtrip_witness :
    (12345 : Nat) < 65536 ∧
    encodeTemperature (decodeTemperature (12345 : Nat)) = (12345 : Nat) :=
  ⟨by decide, decode_encode_roundtrip 12345 (by decide)⟩

/-- C5: setAlertLevels succeeds exactly when the temperature threshold is
inside [-40, 125] and the humidity threshold inside [0, 100]; on success
it writes the alert registers with the inverse-formula encodings, on
failure it writes nothing; the documented maxima (125, 100) succeed and
(-1000, 50) is rejected. -/
theorem setAlertLevels_range (s : CHT8305State) (t h : ℚ) :
    ((setAlertLevels s t h).fst = true ↔
      (-40 ≤ t ∧ t ≤ 125 ∧ 0 ≤ h ∧ h ≤ 100)) ∧
    (setAlertLevels s t h).snd =
      (if -40 ≤ t ∧ t ≤ 125 ∧ 0 ≤ h ∧ h ≤ 100 then
        { s with alertLevelT := encodeTemperature t,
                 alertLevelH := encodeHumidity h }
       else s) ∧
    (setAlertLevels s 125 100).fst = true ∧
    (setAlertLevels s (-1000) 50).fst = false := by
  have key : (setAlertLevels s t h).fst = true ↔
      (¬(t < -40 ∨ 125 < t) ∧ ¬(h < 0 ∨ 100 < h)) := by
    unfold setAlertLevels
    split_ifs with h1 h2
    · simp [h1]
    · simp [h1, h2]
    · simp [h1, h2]
  refine ⟨?_, ?_, by norm_num [setAlertLevels], by norm_num [setAlertLevels]⟩
  · rw [key]
    constructor
    · rintro ⟨hA, hB⟩
      push_neg at hA hB
      exact ⟨hA.1, hA.2, hB.1, hB.2⟩
    · rintro ⟨a, b, c, d⟩
      constructor <;> push_neg
      · exact ⟨a, b⟩
      · exact ⟨c, d⟩
  · by_cases hr : -40 ≤ t ∧ t ≤ 125 ∧ 0 ≤ h ∧ h ≤ 100
    · rw [if_pos hr]
      unfold setAlertLevels
      rw [if_neg (by push_neg; exact ⟨hr.1, hr.2.1⟩),
          if_neg (by push_neg; exact ⟨hr.2.2.1, hr.2.2.2⟩)]
    · rw [if_neg hr]
      unfold setAlertLevels
      by_cases h1 : t < -40 ∨ 125 < t
      · rw [if_pos h1]
      · rw [if_neg h1]
        push_neg at h1
        have h2 : h < 0 ∨ 100 < h := by
          by_contra hc
          push_neg at hc
          exact hr ⟨h1.1, h1.2, hc.1, hc.2⟩
        rw [if_pos h2]

/-- C4: every configuration field setter (clock stretch, heater,
measurement mode, temperature resolution, humidity resolution, alert
trigger mode, VCC enable) is a read-modify-write against its own mask
only: getting the field back returns the value just set, and the bits of
the 16-bit configuration register outside the field mask keep their
prior values. -/
theorem configSetters_rmw_isolation (reg : Nat) (b : Bool)
    (tres hres amode : Nat) (ht : tres ≤ 1) (hh : hres ≤ 2) (ha : amode ≤ 3) :
    (getI2CClockStretch (setI2CClockStretch reg b) = b ∧
      setI2CClockStretch reg b &&& (65535 ^^^ CHT8305_CFG_CLOCK_STRETCH)
        = reg &&& (65535 ^^^ CHT8305_CFG_CLOCK_STRETCH)) ∧
    (getHeater (setHeaterOn reg b) = b ∧
      setHeaterOn reg b &&& (65535 ^^^ CHT8305_CFG_HEATER)
        = reg &&& (65535 ^^^ CHT8305_CFG_HEATER)) ∧
    (getMeasurementMode (setMeasurementMode reg b) = b ∧
      setMeasurementMode reg b &&& (65535 ^^^ CHT8305_CFG_MODE)
        = reg &&& (65535 ^^^ CHT8305_CFG_MODE)) ∧
    (getTemperatureResolution (setTemperatureResolution reg tres) = tres ∧
      setTemperatureResolution reg tres &&& (65535 ^^^ CHT8305_CFG_TEMP_RES)
        = reg &&& (65535 ^^^ CHT8305_CFG_TEMP_RES)) ∧
    (getHumidityResolution (setHumidityResolution reg hres) = hres ∧
      setHumidityResolution reg hres &&& (65535 ^^^ CHT8305_CFG_HUMI_RES)
        = reg &&& (65535 ^^^ CHT8305_CFG_HUMI_RES)) ∧
    ((setAlertTriggerMode reg amode).fst = true ∧
      getAlertTriggerMode (setAlertTriggerMode reg amode).snd = amode ∧
      (setAlertTriggerMode reg amode).snd &&& (65535 ^^^ CHT8305_CFG_ALERT_MODE)
        = reg &&& (65535 ^^^ CHT8305_CFG_ALERT_MODE)) ∧
    (getVCCenable (setVCCenable reg b) = b ∧
      setVCCenable reg b &&& (65535 ^^^ CHT8305_CFG_VCC_ENABLE)
        = reg &&& (65535 ^^^ CHT8305_CFG_VCC_ENABLE)) := by
  refine ⟨⟨?_, ?_⟩, ⟨?_, ?_⟩, ⟨?_, ?_⟩, ⟨?_, ?_⟩, ⟨?_, ?_⟩, ⟨?_, ?_, ?_⟩, ⟨?_, ?_⟩⟩
  · simp only [getI2CClockStretch, setI2CClockStretch]
    rw [getField_setField reg CHT8305_CFG_CLOCK_STRETCH 14 (cond b 1 0)
        (by cases b <;> decide) (by decide)]
    cases b <;> rfl
  · exact setField_frame reg CHT8305_CFG_CLOCK_STRETCH 14 (cond b 1 0)
      (by cases b <;> decide) (by decide)
  · simp only [getHeater, setHeaterOn]
    rw [getField_setField reg CHT8305_CFG_HEATER 13 (cond b 1 0)
        (by cases b <;> decide) (by decide)]
    cases b <;> rfl
  · exact setField_frame reg CHT8305_CFG_HEATER 13 (cond b 1 0)
      (by cases b <;> decide) (by decide)
  · simp only [getMeasurementMode, setMeasurementMode]
    rw [getField_setField reg CHT8305_CFG_MODE 12 (cond b 1 0)
        (by cases b <;> decide) (by decide)]
    cases b <;> rfl
  · exact setField_frame reg CHT8305_CFG_MODE 12 (cond b 1 0)
      (by cases b <;> decide) (by decide)
  · simp only [getTemperatureResolution, setTemperatureResolution]
    rw [getField_setField reg CHT8305_CFG_TEMP_RES 10 (if tres = 1 then 1 else 0)
        (by split <;> decide) (by decide)]
    split <;> omega
  · exact setField_frame reg CHT8305_CFG_TEMP_RES 10 (if tres = 1 then 1 else 0)
      (by split <;> decide) (by decide)
  · simp only [getHumidityResolution, setHumidityResolution]
    rw [getField_setField reg CHT8305_CFG_HUMI_RES 8
        (if hres = 2 then 2 else if hres = 1 then 1 else 0)
        (by split <;> (try split) <;> decide) (by decide)]
    split <;> (try split) <;> omega
  · exact setField_frame reg CHT8305_CFG_HUMI_RES 8
      (if hres = 2 then 2 else if hres = 1 then 1 else 0)
      (by split <;> (try split) <;> decide) (by decide)
  · simp only [setAlertTriggerMode]
    rw [if_neg (by omega)]
  · simp only [getAlertTriggerMode, setAlertTriggerMode]
    rw [if_neg (by omega)]
    exact getField_setField reg CHT8305_CFG_ALERT_MODE 6 amode
      (by interval_cases amode <;> decide) (by decide)
  · simp only [setAlertTriggerMode]
    rw [if_neg (by omega)]
    exact setField_frame reg CHT8305_CFG_ALERT_MODE 6 amode
      (by interval_cases amode <;> decide) (by decide)
  · simp only [getVCCenable, setVCCenable]
    rw [getField_setField reg CHT8305_CFG_VCC_ENABLE 2 (cond b 1 0)
        (by cases b <;> decide) (by decide)]
    cases b <;> rfl
  · exact setField_frame reg CHT8305_CFG_VCC_ENABLE 2 (cond b 1 0)
      (by cases b <;> decide) (by decide)

/-- Witness for C4: read-modify-write isolation at the concrete register
value 0x1234 with field values true, 1, 2 and 3. -/
theorem configSetters_rmw_isolation_witness :
    ((1 : Nat) ≤ 1 ∧ (2 : Nat) ≤ 2 ∧ (3 : Nat) ≤ 3) ∧
    ((getI2CClockStretch (setI2CClockStretch 0x1234 true) = true ∧
      setI2CClockStretch 0x1234 true &&& (65535 ^^^ CHT8305_CFG_CLOCK_STRETCH)
        = 0x1234 &&& (65535 ^^^ CHT8305_CFG_CLOCK_STRETCH)) ∧
    (getHeater (setHeaterOn 0x1234 true) = true ∧
      setHeaterOn 0x1234 true &&& (65535 ^^^ CHT8305_CFG_HEATER)
        = 0x1234 &&& (65535 ^^^ CHT8305_CFG_HEATER)) ∧
    (getMeasurementMode (setMeasurementMode 0x1234 true) = true ∧
      setMeasurementMode 0x1234 true &&& (65535 ^^^ CHT8305_CFG_MODE)
        = 0x1234 &&& (65535 ^^^ CHT8305_CFG_MODE)) ∧
    (getTemperatureResolution (setTemperatureResolution 0x1234 1) = 1 ∧
      setTemperatureResolution 0x1234 1 &&& (65535 ^^^ CHT8305_CFG_TEMP_RES)
        = 0x1234 &&& (65535 ^^^ CHT8305_CFG_TEMP_RES)) ∧
    (getHumidityResolution (setHumidityResolution 0x1234 2) = 2 ∧
      setHumidityResolution 0x1234 2 &&& (65535 ^^^ CHT8305_CFG_HUMI_RES)
        = 0x1234 &&& (65535 ^^^ CHT8305_CFG_HUMI_RES)) ∧
    ((setAlertTriggerMode 0x1234 3).fst = true ∧
      getAlertTriggerMode (setAlertTriggerMode 0x1234 3).snd = 3 ∧
      (setAlertTriggerMode 0x1234 3).snd &&& (65535 ^^^ CHT8305_CFG_ALERT_MODE)
        = 0x1234 &&& (65535 ^^^ CHT8305_CFG_ALERT_MODE)) ∧
    (getVCCenable (setVCCenable 0x1234 true) = true ∧
      setVCCenable 0x1234 true &&& (65535 ^^^ CHT8305_CFG_VCC_ENABLE)
        = 0x1234 &&& (65535 ^^^ CHT8305_CFG_VCC_ENABLE))) :=
  ⟨by decide,
   configSetters_rmw_isolation 0x1234 true 1 2 3 (by decide) (by decide) (by decide)⟩

end CHT8305
